import Mathlib

/-!
Verification development for the restaurant POS backend
(order lifecycle, pricing, vouchers, gift cards).

The definitions below are a shallow embedding of the JavaScript
controllers:
  * `src/controllers/orderController.js`   — order CRUD and totals
  * `src/controllers/inventoryController.js` — kitchen-side status updates
  * the voucher controller (applyVoucher / removeVoucher)
  * the gift-card controller (createGiftCard / redeemGiftCard / addFunds)

Monetary values are modelled as rationals (`ℚ`); JavaScript
`Math.round(x * 100) / 100` becomes `round2` below (Mathlib's `round`
is `⌊x + 1/2⌋`, which is exactly JS `Math.round` on rationals).
Timestamps are modelled as integers (milliseconds since the epoch).
Database lookups are modelled by passing the resolved record (an
`Option` where the controller has a not-found branch); authentication
and tenant checks, which precede every business-rule branch and do not
touch the order/voucher/gift-card state, are outside the modelled
state.  Each guard in a definition is commented with the source branch
it embeds.
-/

/-- JS `Math.round(q * 100) / 100`: round to 2 decimal places,
half toward +∞. -/
def round2 (q : ℚ) : ℚ := (round (q * 100) : ℤ) / 100

/-- Order statuses (Prisma enum `OrderStatus`). -/
inductive OrderStatus
  | PENDING | PREPARING | READY | SERVED | COMPLETED | CANCELLED
  deriving DecidableEq, Repr

/-- Order-item statuses (Prisma enum `OrderItemStatus`). -/
inductive ItemStatus
  | PENDING | PREPARING | READY | SERVED | CANCELLED
  deriving DecidableEq, Repr

/-- A catalog modifier (`Modifier` model): id, price, availability. -/
structure Modifier where
  id : ℕ
  price : ℚ
  available : Bool
  deriving DecidableEq, Repr

/-- A catalog menu item (`MenuItem` model) with its modifier groups. -/
structure MenuItem where
  price : ℚ
  available : Bool
  restaurantId : ℕ
  modifierGroups : List (List Modifier)
  deriving DecidableEq, Repr

/-- Voucher types (Prisma enum `VoucherType`). -/
inductive VoucherType
  | PERCENTAGE | FIXED_AMOUNT | FREE_ITEM
  deriving DecidableEq, Repr

/-- A voucher (`Voucher` model).  Dates are epoch milliseconds. -/
structure Voucher where
  type : VoucherType
  value : ℚ
  minPurchase : ℚ
  isActive : Bool
  startDate : ℤ
  expiryDate : ℤ
  usageLimit : Option ℤ
  usageCount : ℤ
  deriving DecidableEq, Repr

/-- One order line (`OrderItem` model); `modifiers` keeps the
`OrderItemModifier.price` snapshots. -/
structure OrderItem where
  price : ℚ
  quantity : ℤ
  modifiers : List ℚ
  status : ItemStatus
  deriving DecidableEq, Repr

/-- An order (`Order` model).  `taxRate` is the owning restaurant's
`taxRate` (non-null, default 0 in the schema), carried here because
every controller re-reads it from `order.restaurant`.  `redemptions`
mirrors `order.voucherRedemptions` (each redemption records its
voucher). -/
structure Order where
  status : OrderStatus
  items : List OrderItem
  subtotal : ℚ
  tax : ℚ
  tip : Option ℚ
  total : ℚ
  taxRate : ℚ
  restaurantId : ℕ
  completedAt : Option ℤ
  redemptions : List Voucher
  deriving DecidableEq, Repr

/-- Error outcomes.  Each constructor corresponds to one early-return
`res.status(4xx)` branch of the controllers (the comment quotes the
message). -/
inductive Err
  | validationFailed      -- express-validator errors (route validation)
  | emptyOrderItems       -- 'Order must have at least one item'
  | menuItemNotFound      -- 'Menu item ... not found'
  | menuItemWrongRestaurant -- '... does not belong to this restaurant'
  | menuItemUnavailable   -- 'Menu item ... is not available'
  | modifierInvalid       -- 'Modifier ... is not valid for menu item'
  | modifierUnavailable   -- 'Modifier ... is not available'
  | invalidStatus         -- 'Invalid status'
  | orderNotEditable      -- 'Cannot add/update items to an order with status ...'
  | orderNotPending       -- 'Cannot remove items from an order with status ...'
  | lastItem              -- 'Cannot remove the last item from an order.'
  | orderItemNotFound     -- 'Order item not found'
  | cannotCancel          -- 'Cannot cancel an order with status ...'
  | voucherAlreadyApplied -- 'A voucher has already been applied to this order'
  | voucherNotFound       -- 'Voucher not found'
  | voucherInactive       -- 'Voucher is inactive'
  | voucherNotStarted     -- 'Voucher is not valid until ...'
  | voucherExpired        -- 'Voucher expired on ...'
  | voucherUsageLimit     -- 'Voucher has reached its usage limit'
  | voucherMinPurchase    -- 'Voucher requires a minimum purchase of ...'
  | noVoucherApplied      -- 'No voucher applied to this order'
  | giftCardInactive      -- 'Gift card is inactive'
  | giftCardExpired       -- 'Gift card is expired'
  | insufficientBalance   -- 'Insufficient balance. ...'
  deriving DecidableEq, Repr

/-- One requested line of a create/add-items request.  `menuItem` is
the result of the `prisma.menuItem.findUnique` lookup (`none` when the
id resolves to nothing). -/
structure OrderItemInput where
  menuItem : Option MenuItem
  quantity : ℤ
  modifierIds : List ℕ
  deriving DecidableEq, Repr

/-- The inner search of the modifier-validation loop: scan the menu
item's `modifierGroups` for a modifier with the requested id
(orderController.js lines 352–363). -/
def findModifier : List (List Modifier) → ℕ → Option Modifier
  | [], _ => none
  | g :: gs, mid =>
      match g.find? (fun m => m.id == mid) with
      | some m => some m
      | none => findModifier gs mid

/-- The modifier-validation loop (orderController.js lines 351–385):
each requested id must resolve inside the item's groups and be
available; the validated prices are collected. -/
def validateModifiers (groups : List (List Modifier)) :
    List ℕ → Except Err (List ℚ)
  | [] => .ok []
  | mid :: rest =>
      match findModifier groups mid with
      | none => .error .modifierInvalid
      | some m =>
          if !m.available then .error .modifierUnavailable
          else
            match validateModifiers groups rest with
            | .error e => .error e
            | .ok ps => .ok (m.price :: ps)

/-- Validation of one requested item (orderController.js lines
311–397): the menu item must exist, belong to the order's restaurant
and be available; modifiers are validated; the price snapshot is taken
from the catalog.  New items are created with the schema default
status `PENDING`. -/
def validateOrderItem (restaurantId : ℕ) (inp : OrderItemInput) :
    Except Err OrderItem :=
  match inp.menuItem with
  | none => .error .menuItemNotFound
  | some mi =>
      if mi.restaurantId ≠ restaurantId then .error .menuItemWrongRestaurant
      else if !mi.available then .error .menuItemUnavailable
      else
        match validateModifiers mi.modifierGroups inp.modifierIds with
        | .error e => .error e
        | .ok ps =>
          .ok { price := mi.price, quantity := inp.quantity,
                modifiers := ps, status := .PENDING }

/-- `itemTotal` of the source: `(menuItem.price + modifiersPrice) *
quantity` (orderController.js line 387). -/
def lineTotal (it : OrderItem) : ℚ :=
  (it.price + it.modifiers.sum) * (it.quantity : ℚ)

/-- The item-validation loop, accumulating the subtotal
(orderController.js lines 307–397). -/
def validateOrderItems (restaurantId : ℕ) :
    List OrderItemInput → Except Err (ℚ × List OrderItem)
  | [] => .ok (0, [])
  | inp :: rest =>
      match validateOrderItem restaurantId inp with
      | .error e => .error e
      | .ok it =>
        match validateOrderItems restaurantId rest with
        | .error e => .error e
        | .ok (s, its) => .ok (lineTotal it + s, it :: its)

/-- The restaurant record fields used by `createOrder`
(`taxRate` is non-null with default 0 in the schema; the source's
`restaurant.taxRate || 0` only re-maps a zero to itself). -/
structure Restaurant where
  id : ℕ
  taxRate : ℚ
  deriving DecidableEq, Repr

/-- `createOrder` (orderController.js lines 218–506), restricted to
the order aggregate: the route validator (`orderRoutes.js` lines
21–35, enforced through `validationResult`) requires a non-empty item
array and integer quantities ≥ 1; the controller re-checks
non-emptiness, validates and prices every item, and computes
`tax = subtotal * (taxRate / 100)`, `total = subtotal + tax` with no
rounding anywhere.  The created order is `PENDING` with no tip and no
redemption.  (Restaurant/table/customer lookups, table occupancy and
the order-number generation act on state outside the order and are
not modelled.) -/
def createOrder (r : Restaurant) (inputs : List OrderItemInput) :
    Except Err Order :=
  -- express-validator: orderItems isArray({min:1}), quantity isInt({min:1})
  if inputs.isEmpty || inputs.any (fun i => i.quantity < 1) then
    .error .validationFailed
  -- controller guard, line 300: 'Order must have at least one item'
  else if inputs.isEmpty then .error .emptyOrderItems
  else
    match validateOrderItems r.id inputs with
    | .error e => .error e
    | .ok (subtotal, items) =>
      let taxRate := r.taxRate
      let tax := subtotal * (taxRate / 100)
      let total := subtotal + tax
      .ok { status := .PENDING, items := items, subtotal := subtotal,
            tax := tax, tip := none, total := total, taxRate := taxRate,
            restaurantId := r.id, completedAt := none, redemptions := [] }

/-- `(tip or 0)` of the source (`order.tip || 0`). -/
def tipOr0 (o : Order) : ℚ := o.tip.getD 0

/-- `addOrderItems` (orderController.js lines 623–856): rejected by the
route validator unless the new item list is non-empty with quantities
≥ 1; only `PENDING`/`PREPARING`/`READY` orders may gain items (line
664); the new items are validated and priced exactly as in
`createOrder`; then `newSubtotal = order.subtotal + additionalSubtotal`,
`newTax = newSubtotal * (taxRate / 100)`,
`newTotal = newSubtotal + newTax` (lines 777–779 — note: no `tip`
term), and the items are appended. -/
def addOrderItems (o : Order) (inputs : List OrderItemInput) :
    Except Err Order :=
  -- express-validator (orderRoutes.js lines 38–48), checked at line 626
  if inputs.isEmpty || inputs.any (fun i => i.quantity < 1) then
    .error .validationFailed
  -- line 664: 'Cannot add items to an order with status ...'
  else if ¬ (o.status = .PENDING ∨ o.status = .PREPARING ∨ o.status = .READY)
  then .error .orderNotEditable
  -- line 672: 'Must provide at least one order item'
  else if inputs.isEmpty then .error .emptyOrderItems
  else
    match validateOrderItems o.restaurantId inputs with
    | .error e => .error e
    | .ok (additionalSubtotal, newItems) =>
      let taxRate := o.taxRate
      let newSubtotal := o.subtotal + additionalSubtotal
      let newTax := newSubtotal * (taxRate / 100)
      let newTotal := newSubtotal + newTax
      .ok { o with
        items := o.items ++ newItems
        subtotal := newSubtotal
        tax := newTax
        total := newTotal }

/-- Recomputation of the subtotal from all stored items, as done in
`updateOrderItem` (orderController.js lines 948–959): per item,
`itemPrice = price + Σ modifier prices`, summed as
`itemPrice * quantity`. -/
def recomputeSubtotal (items : List OrderItem) : ℚ :=
  (items.map lineTotal).sum

/-- `updateOrderItem` (orderController.js lines 863–988).  The item is
addressed by its position `idx` (the source addresses it by id and
404s when it is not part of the order).  `quantity` is applied only
when given and > 0 (line 919; this handler never consults
`validationResult`, so the route's `isInt({min:1})` is not enforced
here); `status` is applied whenever given.  When a quantity was given
and differs from the stored one, subtotal/tax/total are recomputed
from all items (lines 938–979), with `newTotal = newSubtotal + newTax`
— again no `tip` term.  The order's own `status` is never touched. -/
def updateOrderItem (o : Order) (idx : ℕ) (quantity : Option ℤ)
    (status : Option ItemStatus) : Except Err Order :=
  -- line 892: 'Cannot update items for an order with status ...'
  if ¬ (o.status = .PENDING ∨ o.status = .PREPARING ∨ o.status = .READY)
  then .error .orderNotEditable
  else
    match o.items[idx]? with
    -- line 910: 'Order item not found'
    | none => .error .orderItemNotFound
    | some it =>
      let newQty := match quantity with
        | some q => if q > 0 then q else it.quantity
        | none => it.quantity
      let it' := { it with
        quantity := newQty
        status := status.getD it.status }
      let items' := o.items.set idx it'
      match quantity with
      | some q =>
        if q ≠ it.quantity then
          -- lines 938–979: recompute totals from all items
          let newSubtotal := recomputeSubtotal items'
          let newTax := newSubtotal * (o.taxRate / 100)
          let newTotal := newSubtotal + newTax
          .ok { o with
            items := items'
            subtotal := newSubtotal
            tax := newTax
            total := newTotal }
        else .ok { o with items := items' }
      | none => .ok { o with items := items' }

/-- `removeOrderItem` (orderController.js lines 995–1126): only
`PENDING` orders (line 1026); never the last item (line 1034:
`order.orderItems.length <= 1`); the removed line's
`(price + Σ modifiers) * quantity` is subtracted from the subtotal and
tax/total recomputed (`newTotal = newSubtotal + newTax`, no tip). -/
def removeOrderItem (o : Order) (idx : ℕ) : Except Err Order :=
  -- line 1026: 'Cannot remove items from an order with status ...'
  if o.status ≠ .PENDING then .error .orderNotPending
  -- line 1034: 'Cannot remove the last item from an order.'
  else if o.items.length ≤ 1 then .error .lastItem
  else
    match o.items[idx]? with
    -- line 1053: 'Order item not found'
    | none => .error .orderItemNotFound
    | some it =>
      let itemTotal := lineTotal it
      let newSubtotal := o.subtotal - itemTotal
      let newTax := newSubtotal * (o.taxRate / 100)
      let newTotal := newSubtotal + newTax
      .ok { o with
        items := o.items.eraseIdx idx
        subtotal := newSubtotal
        tax := newTax
        total := newTotal }

/-- `updateOrderStatus` (orderController.js lines 513–616).  The only
status check is membership of the raw input in the full enum (line
519), which every `OrderStatus` value passes; there is no
state-machine validation — the requested status is written whatever
the current one is.  Entering `COMPLETED`/`CANCELLED` stamps
`completedAt := now` (line 557); the table-release side effect (lines
560–579) acts on table state outside the order and is not modelled. -/
def updateOrderStatus (o : Order) (status : OrderStatus) (now : ℤ) :
    Except Err Order :=
  -- line 519: membership in the full enum; true for every OrderStatus
  if ¬ ([OrderStatus.PENDING, .PREPARING, .READY, .SERVED, .COMPLETED,
         .CANCELLED].contains status) then .error .invalidStatus
  else
    let completedAt :=
      if status = .COMPLETED ∨ status = .CANCELLED then some now
      else o.completedAt
    .ok { o with status := status, completedAt := completedAt }

/-- `cancelOrder` (orderController.js lines 1133–1229): only
`PENDING`/`PREPARING`/`READY` orders may be cancelled (line 1164);
sets `CANCELLED` and stamps `completedAt`. -/
def cancelOrder (o : Order) (now : ℤ) : Except Err Order :=
  if ¬ (o.status = .PENDING ∨ o.status = .PREPARING ∨ o.status = .READY)
  then .error .cannotCancel
  else .ok { o with status := .CANCELLED, completedAt := some now }

/-- The order-status promotion performed after a kitchen per-item
status change (inventoryController.js lines 756–780): `allReady` and
`allServed` are computed over the reloaded items (lines 761–767); the
promotion condition at line 775 is, verbatim,
`allServed && order.status !== 'SERVED'` for `SERVED`, and otherwise
`allReady && order.status === 'PENDING' || order.status === 'PREPARING'`
for `READY` — JavaScript parses the latter as
`(allReady && status == PENDING) || status == PREPARING`, so an order
currently `PREPARING` is promoted to `READY` whether or not all items
are ready. -/
def derivedOrderStatus (items : List OrderItem) (cur : OrderStatus) :
    OrderStatus :=
  let allReady := items.all (fun i => i.status = .READY ∨ i.status = .SERVED)
  let allServed := items.all (fun i => i.status = .SERVED)
  if allServed ∧ cur ≠ .SERVED then .SERVED
  else if (allReady ∧ cur = .PENDING) ∨ cur = .PREPARING then .READY
  else cur

/-- `updateOrderItemStatus` (inventoryController.js lines 707–796),
the kitchen-side per-item status update: writes the requested status
onto the addressed item and then applies `derivedOrderStatus` to the
updated item list. -/
def updateOrderItemStatus (o : Order) (idx : ℕ) (status : ItemStatus) :
    Except Err Order :=
  -- line 713: membership in the item enum; true for every ItemStatus
  if ¬ ([ItemStatus.PENDING, .PREPARING, .READY, .SERVED,
         .CANCELLED].contains status) then .error .invalidStatus
  else
    match o.items[idx]? with
    -- line 728: 'Order item not found'
    | none => .error .orderItemNotFound
    | some it =>
      let items' := o.items.set idx { it with status := status }
      .ok { o with
        items := items'
        status := derivedOrderStatus items' o.status }

/-- `updateKitchenOrderStatus` (inventoryController.js lines 803–900):
the request must be `PREPARING` or `READY` (line 809); the order must
currently be `PENDING` or `PREPARING` (line 840) — either target is
accepted from either of those states; the order takes the requested
status and the items are bulk-mirrored: target `PREPARING` moves all
`PENDING` items to `PREPARING` (lines 862–872), target `READY` moves
all `PREPARING` items to `READY` (lines 875–885). -/
def updateKitchenOrderStatus (o : Order) (status : OrderStatus) :
    Except Err Order :=
  -- line 809: 'Invalid status. Kitchen can only set orders to PREPARING or READY'
  if ¬ (status = .PREPARING ∨ status = .READY) then .error .invalidStatus
  -- line 840: 'Cannot change kitchen status for an order with status ...'
  else if ¬ (o.status = .PENDING ∨ o.status = .PREPARING) then
    .error .orderNotEditable
  else
    let items₁ :=
      if status = .PREPARING then
        o.items.map (fun it =>
          if it.status = .PENDING then { it with status := .PREPARING } else it)
      else o.items
    let items₂ :=
      if status = .READY then
        items₁.map (fun it =>
          if it.status = .PREPARING then { it with status := .READY } else it)
      else items₁
    .ok { o with status := status, items := items₂ }

/-- The hard-coded timestamp `new Date("2025-05-09T05:49:52Z")` that
`applyVoucher` uses instead of the system clock (voucher controller,
line 537), in epoch milliseconds. -/
def APPLY_VOUCHER_NOW : ℤ := 1746769792000

/-- The percentage discount of `applyVoucher`:
`(order.subtotal * voucher.value) / 100` (line 581). -/
def percentageDiscount (subtotal value : ℚ) : ℚ := subtotal * value / 100

/-- The raw (pre-rounding) discount of `applyVoucher`
(lines 579–588): `PERCENTAGE` → `subtotal*value/100`;
`FIXED_AMOUNT` → `min(value, subtotal)`; `FREE_ITEM` → `value`. -/
def discountAmount (v : Voucher) (subtotal : ℚ) : ℚ :=
  match v.type with
  | .PERCENTAGE => percentageDiscount subtotal v.value
  | .FIXED_AMOUNT => min v.value subtotal
  | .FREE_ITEM => v.value

/-- `applyVoucher` (voucher controller, lines 473–649).  `realNow`
models the ambient wall-clock time of the request; the body never
consults it — every date comparison uses the constant
`APPLY_VOUCHER_NOW` (line 537).  `voucher` is the result of the
code lookup (`findFirst`, lines 522–527).  Guards in source order:
already-applied (line 514), not-found (line 529), inactive (540),
not-started (548), expired (555), usage limit (563), minimum purchase
(571).  On success the discount is rounded to cents (line 591), the
subtotal is clamped at 0 (line 594),
`newTax = newSubtotal * taxRate / 100`,
`newTotal = newSubtotal + newTax + (tip or 0)`, a redemption
recording the voucher is stored and the voucher's `usageCount` is
incremented. -/
def applyVoucher (_realNow : ℤ) (o : Order) (voucher : Option Voucher) :
    Except Err (Order × Voucher) :=
  -- line 514: 'A voucher has already been applied to this order'
  if o.redemptions.length > 0 then .error .voucherAlreadyApplied
  else
    match voucher with
    -- line 529: 'Voucher not found'
    | none => .error .voucherNotFound
    | some v =>
      -- line 540: 'Voucher is inactive'
      if !v.isActive then .error .voucherInactive
      -- line 548: `now < new Date(voucher.startDate)`
      else if APPLY_VOUCHER_NOW < v.startDate then .error .voucherNotStarted
      -- line 555: `now > new Date(voucher.expiryDate)`
      else if APPLY_VOUCHER_NOW > v.expiryDate then .error .voucherExpired
      -- line 563: usage limit reached
      else if v.usageLimit.any (fun l => decide (v.usageCount ≥ l)) then
        .error .voucherUsageLimit
      -- line 571: `voucher.minPurchase > order.subtotal`
      else if v.minPurchase > o.subtotal then .error .voucherMinPurchase
      else
        let d := round2 (discountAmount v o.subtotal)
        let newSubtotal := max 0 (o.subtotal - d)
        let newTax := newSubtotal * o.taxRate / 100
        let newTotal := newSubtotal + newTax + tipOr0 o
        let v' := { v with usageCount := v.usageCount + 1 }
        .ok ({ o with
          subtotal := newSubtotal
          tax := newTax
          total := newTotal
          redemptions := [v'] }, v')

/-- The divisor of the `PERCENTAGE` branch of `removeVoucher`:
`1 - voucher.value / 100` (line 711). -/
def removeDiscountFactor (v : Voucher) : ℚ := 1 - v.value / 100

/-- `removeVoucher` (voucher controller, lines 656–765): fails only
when no redemption exists (line 692); otherwise reconstructs the
pre-discount subtotal from the applied voucher's type —
`PERCENTAGE`: `subtotal / (1 - value/100)` (lines 707–713, with no
guard against `value = 100`, where the divisor is zero);
`FIXED_AMOUNT`/`FREE_ITEM`: `subtotal + value` (lines 714–718) —
rounds it to cents, recomputes `tax = original * taxRate / 100` and
`total = original + tax + (tip or 0)`, deletes the redemption and
decrements the voucher's `usageCount`.  (In `ℚ` a zero divisor yields
0; in the source it yields `Infinity`/`NaN` — the point proved about
it below is only that the branch is reached unguarded.) -/
def removeVoucher (o : Order) : Except Err (Order × Voucher) :=
  match o.redemptions with
  -- line 692: 'No voucher applied to this order'
  | [] => .error .noVoucherApplied
  | v :: rest =>
    let originalSubtotal :=
      match v.type with
      | .PERCENTAGE => o.subtotal / removeDiscountFactor v
      | .FIXED_AMOUNT => o.subtotal + v.value
      | .FREE_ITEM => o.subtotal + v.value
    let originalSubtotal := round2 originalSubtotal
    let newTax := originalSubtotal * o.taxRate / 100
    let newTotal := originalSubtotal + newTax + tipOr0 o
    let v' := { v with usageCount := v.usageCount - 1 }
    .ok ({ o with
      subtotal := originalSubtotal
      tax := newTax
      total := newTotal
      redemptions := rest }, v')

/-- Gift-card transaction types (Prisma enum `TransactionType`). -/
inductive TransactionType
  | ISSUE | LOAD | REDEEM | REFUND
  deriving DecidableEq, Repr

/-- One ledger entry (`GiftCardTransaction` model). -/
structure GiftCardTransaction where
  type : TransactionType
  amount : ℚ
  deriving DecidableEq, Repr

/-- A gift card (`GiftCard` model) together with its transaction
ledger (`transactions` relation). -/
structure GiftCard where
  initialBalance : ℚ
  currentBalance : ℚ
  isActive : Bool
  expiryDate : Option ℤ
  transactions : List GiftCardTransaction
  deriving DecidableEq, Repr

/-- `createGiftCard` (gift-card controller, lines 990–1118): the route
validator requires `initialBalance ≥ 1`; the card starts active with
`currentBalance = initialBalance` and an `ISSUE` transaction of the
full initial balance is recorded (lines 1060–1089). -/
def createGiftCard (initialBalance : ℚ) (expiryDate : Option ℤ) :
    Except Err GiftCard :=
  -- express-validator: initialBalance isFloat({min: 1})
  if initialBalance < 1 then .error .validationFailed
  else
    .ok { initialBalance := initialBalance
          currentBalance := initialBalance
          isActive := true
          expiryDate := expiryDate
          transactions := [{ type := .ISSUE, amount := initialBalance }] }

/-- `redeemGiftCard` (gift-card controller, lines 1125–1260).  Unlike
`applyVoucher`, the expiry check here uses the real clock
(`new Date()`, line 1162), modelled by `now`.  Guards: validator
`amount ≥ 0.01`; inactive (line 1154); expired (line 1162);
insufficient balance (line 1170).  On success the balance is
decremented, the card is deactivated exactly when the new balance is
not positive (line 1226: `isActive: currentBalance - amount > 0`),
and a `REDEEM` transaction is appended.  (The optional linked order
and `Payment` row are outside the gift-card state.) -/
def redeemGiftCard (now : ℤ) (gc : GiftCard) (amount : ℚ) :
    Except Err GiftCard :=
  -- express-validator: amount isFloat({min: 0.01})
  if amount < 1/100 then .error .validationFailed
  -- line 1154: 'Gift card is inactive'
  else if !gc.isActive then .error .giftCardInactive
  -- line 1162: `giftCard.expiryDate && new Date(giftCard.expiryDate) < new Date()`
  else if gc.expiryDate.any (fun d => decide (d < now)) then
    .error .giftCardExpired
  -- line 1170: 'Insufficient balance. ...'
  else if gc.currentBalance < amount then .error .insufficientBalance
  else
    .ok { gc with
      currentBalance := gc.currentBalance - amount
      isActive := decide (gc.currentBalance - amount > 0)
      transactions := gc.transactions ++ [{ type := .REDEEM, amount := amount }] }

/-- `addFunds` (gift-card controller, lines 1267–1341): validator
`amount ≥ 0.01`; increments the balance, re-activates the card and
appends a `LOAD` transaction. -/
def addFunds (gc : GiftCard) (amount : ℚ) : Except Err GiftCard :=
  -- express-validator: amount isFloat({min: 0.01})
  if amount < 1/100 then .error .validationFailed
  else
    .ok { gc with
      currentBalance := gc.currentBalance + amount
      isActive := true
      transactions := gc.transactions ++ [{ type := .LOAD, amount := amount }] }

/-- The signed value of one ledger entry, as the spec counts them:
`ISSUE`/`LOAD`/`REFUND` positive, `REDEEM` negative. -/
def signedAmount (t : GiftCardTransaction) : ℚ :=
  match t.type with
  | .ISSUE => t.amount
  | .LOAD => t.amount
  | .REFUND => t.amount
  | .REDEEM => -t.amount

/-- Signed sum of a gift card's ledger. -/
def signedSum (ts : List GiftCardTransaction) : ℚ :=
  (ts.map signedAmount).sum

/-! ### Reachable order states and per-operation characterizations -/

/-- The monetary invariant of §3 of the specification:
`total == subtotal + tax + (tip or 0)`. -/
def totalInvariant (o : Order) : Prop :=
  o.total = o.subtotal + o.tax + tipOr0 o

/-- Order states producible by the modelled operations: an order is
created by a successful `createOrder` and then evolved by the
successful mutating operations. -/
inductive OrderReachable : Order → Prop
  | created (r : Restaurant) (inputs : List OrderItemInput) (o : Order) :
      createOrder r inputs = .ok o → OrderReachable o
  | addItems (o : Order) (inputs : List OrderItemInput) (o' : Order) :
      OrderReachable o → addOrderItems o inputs = .ok o' → OrderReachable o'
  | updateItem (o : Order) (idx : ℕ) (q : Option ℤ) (s : Option ItemStatus)
      (o' : Order) :
      OrderReachable o → updateOrderItem o idx q s = .ok o' → OrderReachable o'
  | removeItem (o : Order) (idx : ℕ) (o' : Order) :
      OrderReachable o → removeOrderItem o idx = .ok o' → OrderReachable o'
  | setStatus (o : Order) (s : OrderStatus) (now : ℤ) (o' : Order) :
      OrderReachable o → updateOrderStatus o s now = .ok o' → OrderReachable o'
  | cancel (o : Order) (now : ℤ) (o' : Order) :
      OrderReachable o → cancelOrder o now = .ok o' → OrderReachable o'
  | itemStatus (o : Order) (idx : ℕ) (s : ItemStatus) (o' : Order) :
      OrderReachable o → updateOrderItemStatus o idx s = .ok o' →
      OrderReachable o'
  | kitchenStatus (o : Order) (s : OrderStatus) (o' : Order) :
      OrderReachable o → updateKitchenOrderStatus o s = .ok o' →
      OrderReachable o'
  | applyV (t : ℤ) (o : Order) (v : Option Voucher) (o' : Order) (v' : Voucher) :
      OrderReachable o → applyVoucher t o v = .ok (o', v') → OrderReachable o'
  | removeV (o : Order) (o' : Order) (v' : Voucher) :
      OrderReachable o → removeVoucher o = .ok (o', v') → OrderReachable o'

lemma validateOrderItems_spec (rid : ℕ) :
    ∀ (inputs : List OrderItemInput) (s : ℚ) (its : List OrderItem),
    validateOrderItems rid inputs = .ok (s, its) →
    s = (its.map lineTotal).sum ∧ its.length = inputs.length
  | [], s, its, h => by
      simp only [validateOrderItems, Except.ok.injEq, Prod.mk.injEq] at h
      obtain ⟨hs, hits⟩ := h
      subst hs; subst hits; simp
  | inp :: rest, s, its, h => by
      simp only [validateOrderItems] at h
      cases h1 : validateOrderItem rid inp with
      | error e => rw [h1] at h; exact Except.noConfusion h
      | ok it =>
        rw [h1] at h
        cases h2 : validateOrderItems rid rest with
        | error e => rw [h2] at h; exact Except.noConfusion h
        | ok p =>
          obtain ⟨s', its'⟩ := p
          rw [h2] at h
          simp only [Except.ok.injEq, Prod.mk.injEq] at h
          obtain ⟨hs, hits⟩ := h
          have ih := validateOrderItems_spec rid rest s' its' h2
          subst hs; subst hits
          constructor
          · simp [ih.1]
          · simp [ih.2]

lemma createOrder_ok {r : Restaurant} {inputs : List OrderItemInput}
    {o : Order} (h : createOrder r inputs = .ok o) :
    o.subtotal = (o.items.map lineTotal).sum ∧
    o.tax = o.subtotal * (r.taxRate / 100) ∧
    o.total = o.subtotal + o.tax ∧
    o.tip = none ∧ o.items ≠ [] ∧ o.redemptions = [] ∧
    o.status = .PENDING ∧ o.taxRate = r.taxRate := by
  unfold createOrder at h
  split at h
  · exact Except.noConfusion h
  · split at h
    · exact Except.noConfusion h
    · rename_i hval hemp
      split at h
      · exact Except.noConfusion h
      · rename_i s its hits
        simp only [Except.ok.injEq] at h
        subst h
        have hs := validateOrderItems_spec r.id inputs s its hits
        have hne : its ≠ [] := by
          intro hnil
          have : inputs.length = 0 := by
            rw [← hs.2, hnil]; rfl
          simp only [Bool.or_eq_true, not_or] at hval
          have : inputs.isEmpty = true := by
            cases inputs with
            | nil => rfl
            | cons a l => simp at this
          simp [this] at hval
        exact ⟨hs.1, rfl, rfl, rfl, hne, rfl, rfl, rfl⟩

lemma addOrderItems_ok {o : Order} {inputs : List OrderItemInput}
    {o' : Order} (h : addOrderItems o inputs = .ok o') :
    o'.tip = o.tip ∧ o'.total = o'.subtotal + o'.tax ∧
    o.items.length ≤ o'.items.length ∧ o'.status = o.status := by
  unfold addOrderItems at h
  split at h
  · exact Except.noConfusion h
  · split at h
    · exact Except.noConfusion h
    · split at h
      · exact Except.noConfusion h
      · split at h
        · exact Except.noConfusion h
        · simp only [Except.ok.injEq] at h
          subst h
          refine ⟨rfl, rfl, ?_, rfl⟩
          simp

lemma updateOrderItem_ok {o : Order} {idx : ℕ} {q : Option ℤ}
    {s : Option ItemStatus} {o' : Order}
    (h : updateOrderItem o idx q s = .ok o') :
    o'.tip = o.tip ∧ o'.items.length = o.items.length ∧
    o'.status = o.status ∧
    (o'.total = o'.subtotal + o'.tax ∨
      (o'.subtotal = o.subtotal ∧ o'.tax = o.tax ∧ o'.total = o.total)) := by
  unfold updateOrderItem at h
  repeat' split at h
  all_goals
    first
    | exact Except.noConfusion h
    | (simp only [Except.ok.injEq] at h
       subst h
       first
       | exact ⟨rfl, by simp, rfl, Or.inl rfl⟩
       | exact ⟨rfl, by simp, rfl, Or.inr ⟨rfl, rfl, rfl⟩⟩)

lemma removeOrderItem_ok {o : Order} {idx : ℕ} {o' : Order}
    (h : removeOrderItem o idx = .ok o') :
    o'.tip = o.tip ∧ o'.total = o'.subtotal + o'.tax ∧
    o'.items ≠ [] ∧ o'.status = o.status ∧
    o.status = .PENDING ∧ 2 ≤ o.items.length := by
  unfold removeOrderItem at h
  split at h
  · exact Except.noConfusion h
  · split at h
    · exact Except.noConfusion h
    · rename_i hpend hlen
      split at h
      · exact Except.noConfusion h
      · simp only [Except.ok.injEq] at h
        subst h
        push_neg at hpend hlen
        refine ⟨rfl, rfl, ?_, rfl, hpend, hlen⟩
        intro hnil
        have hl : (o.items.eraseIdx idx).length = 0 := by
          have hc := congrArg List.length hnil
          simpa using hc
        have : o.items.length - 1 ≤ (o.items.eraseIdx idx).length := by
          rcases lt_or_le idx o.items.length with hi | hi
          · rw [List.length_eraseIdx_of_lt hi]
          · rw [List.eraseIdx_of_length_le hi]
            omega
        omega

lemma updateOrderStatus_eq (o : Order) (s : OrderStatus) (now : ℤ) :
    updateOrderStatus o s now =
      .ok { o with
        status := s
        completedAt :=
          if s = .COMPLETED ∨ s = .CANCELLED then some now
          else o.completedAt } := by
  unfold updateOrderStatus
  have hmem : ([OrderStatus.PENDING, .PREPARING, .READY, .SERVED,
      .COMPLETED, .CANCELLED].contains s) = true := by
    cases s <;> rfl
  rw [hmem]
  simp

lemma cancelOrder_ok {o : Order} {now : ℤ} {o' : Order}
    (h : cancelOrder o now = .ok o') :
    (o.status = .PENDING ∨ o.status = .PREPARING ∨ o.status = .READY) ∧
    o' = { o with status := .CANCELLED, completedAt := some now } := by
  unfold cancelOrder at h
  split at h
  · exact Except.noConfusion h
  · rename_i hc
    rw [not_not] at hc
    simp only [Except.ok.injEq] at h
    subst h
    exact ⟨hc, rfl⟩

lemma updateOrderItemStatus_ok {o : Order} {idx : ℕ} {s : ItemStatus}
    {o' : Order} (h : updateOrderItemStatus o idx s = .ok o') :
    ∃ it, o.items[idx]? = some it ∧
      o'.items = o.items.set idx { it with status := s } ∧
      o'.status = derivedOrderStatus o'.items o.status ∧
      o'.subtotal = o.subtotal ∧ o'.tax = o.tax ∧ o'.total = o.total ∧
      o'.tip = o.tip := by
  unfold updateOrderItemStatus at h
  split at h
  · exact Except.noConfusion h
  · split at h
    · exact Except.noConfusion h
    · rename_i it hit
      simp only [Except.ok.injEq] at h
      subst h
      exact ⟨it, hit, rfl, rfl, rfl, rfl, rfl, rfl⟩

lemma updateKitchenOrderStatus_ok {o : Order} {s : OrderStatus} {o' : Order}
    (h : updateKitchenOrderStatus o s = .ok o') :
    (s = .PREPARING ∨ s = .READY) ∧
    (o.status = .PENDING ∨ o.status = .PREPARING) ∧
    o'.status = s ∧ o'.tip = o.tip ∧
    o'.subtotal = o.subtotal ∧ o'.tax = o.tax ∧ o'.total = o.total ∧
    o'.items =
      (if s = .READY then
        (if s = .PREPARING then
          o.items.map (fun it =>
            if it.status = .PENDING then { it with status := .PREPARING }
            else it)
         else o.items).map (fun it =>
          if it.status = .PREPARING then { it with status := .READY } else it)
       else
        (if s = .PREPARING then
          o.items.map (fun it =>
            if it.status = .PENDING then { it with status := .PREPARING }
            else it)
         else o.items)) := by
  unfold updateKitchenOrderStatus at h
  split at h
  · exact Except.noConfusion h
  · split at h
    · exact Except.noConfusion h
    · rename_i hs hcur
      rw [not_not] at hs hcur
      simp only [Except.ok.injEq] at h
      subst h
      exact ⟨hs, hcur, rfl, rfl, rfl, rfl, rfl, rfl⟩

lemma applyVoucher_ok {t : ℤ} {o : Order} {v : Option Voucher}
    {o' : Order} {v' : Voucher} (h : applyVoucher t o v = .ok (o', v')) :
    o'.tip = o.tip ∧ o'.total = o'.subtotal + o'.tax + tipOr0 o' ∧
    o'.items = o.items ∧ o'.status = o.status := by
  unfold applyVoucher at h
  repeat' split at h
  all_goals
    first
    | exact Except.noConfusion h
    | (simp only [Except.ok.injEq, Prod.mk.injEq] at h
       obtain ⟨h1, h2⟩ := h
       subst h1
       exact ⟨rfl, by simp [tipOr0], rfl, rfl⟩)

lemma removeVoucher_ok {o : Order} {o' : Order} {v' : Voucher}
    (h : removeVoucher o = .ok (o', v')) :
    o'.tip = o.tip ∧ o'.total = o'.subtotal + o'.tax + tipOr0 o' ∧
    o'.items = o.items ∧ o'.status = o.status := by
  unfold removeVoucher at h
  repeat' split at h
  all_goals
    first
    | exact Except.noConfusion h
    | (simp only [Except.ok.injEq, Prod.mk.injEq] at h
       obtain ⟨h1, h2⟩ := h
       subst h1
       exact ⟨rfl, by simp [tipOr0], rfl, rfl⟩)

lemma reachable_invariant {o : Order} (h : OrderReachable o) :
    o.tip = none ∧ o.total = o.subtotal + o.tax ∧ o.items ≠ [] := by
  induction h with
  | created r inputs o hc =>
      obtain ⟨_, _, h3, h4, h5, _, _, _⟩ := createOrder_ok hc
      exact ⟨h4, h3, h5⟩
  | addItems o inputs o' _ hstep ih =>
      obtain ⟨h1, h2, h3, _⟩ := addOrderItems_ok hstep
      refine ⟨h1.trans ih.1, h2, ?_⟩
      intro hnil
      rw [hnil] at h3
      simp only [List.length_nil, Nat.le_zero] at h3
      exact ih.2.2 (List.length_eq_zero.mp h3)
  | updateItem o idx q s o' _ hstep ih =>
      obtain ⟨h1, h2, _, h4⟩ := updateOrderItem_ok hstep
      refine ⟨h1.trans ih.1, ?_, ?_⟩
      · rcases h4 with h4 | ⟨hs, ht, htot⟩
        · exact h4
        · rw [htot, hs, ht]; exact ih.2.1
      · intro hnil
        rw [hnil] at h2
        simp only [List.length_nil] at h2
        exact ih.2.2 (List.length_eq_zero.mp h2.symm)
  | removeItem o idx o' _ hstep ih =>
      obtain ⟨h1, h2, h3, _⟩ := removeOrderItem_ok hstep
      exact ⟨h1.trans ih.1, h2, h3⟩
  | setStatus o s now o' _ hstep ih =>
      rw [updateOrderStatus_eq] at hstep
      simp only [Except.ok.injEq] at hstep
      subst hstep
      exact ih
  | cancel o now o' _ hstep ih =>
      obtain ⟨_, h2⟩ := cancelOrder_ok hstep
      subst h2
      exact ih
  | itemStatus o idx s o' _ hstep ih =>
      obtain ⟨it, _, hitems, _, hsub, htax, htot, htip⟩ :=
        updateOrderItemStatus_ok hstep
      refine ⟨htip.trans ih.1, by rw [htot, hsub, htax]; exact ih.2.1, ?_⟩
      intro hnil
      rw [hnil] at hitems
      have := congrArg List.length hitems
      simp only [List.length_nil, List.length_set] at this
      exact ih.2.2 (List.length_eq_zero.mp this.symm)
  | kitchenStatus o s o' _ hstep ih =>
      obtain ⟨_, _, _, htip, hsub, htax, htot, hitems⟩ :=
        updateKitchenOrderStatus_ok hstep
      refine ⟨htip.trans ih.1, by rw [htot, hsub, htax]; exact ih.2.1, ?_⟩
      intro hnil
      rw [hnil] at hitems
      have := congrArg List.length hitems
      simp only [List.length_nil] at this
      split at this <;> split at this <;>
        (try simp only [List.length_map] at this) <;>
        exact ih.2.2 (List.length_eq_zero.mp this.symm)
  | applyV t o v o' v' _ hstep ih =>
      obtain ⟨h1, h2, h3, _⟩ := applyVoucher_ok hstep
      have htip : o'.tip = none := h1.trans ih.1
      refine ⟨htip, ?_, ?_⟩
      · rw [h2]
        simp [tipOr0, htip]
      · rw [h3]; exact ih.2.2
  | removeV o o' v' _ hstep ih =>
      obtain ⟨h1, h2, h3, _⟩ := removeVoucher_ok hstep
      have htip : o'.tip = none := h1.trans ih.1
      refine ⟨htip, ?_, ?_⟩
      · rw [h2]
        simp [tipOr0, htip]
      · rw [h3]; exact ih.2.2

/-- Gift-card states producible by the modelled operations: issued by
`createGiftCard`, then evolved by successful `redeemGiftCard` /
`addFunds` calls. -/
inductive GiftCardReachable : GiftCard → Prop
  | created (init : ℚ) (exp : Option ℤ) (gc : GiftCard) :
      createGiftCard init exp = .ok gc → GiftCardReachable gc
  | redeemed (now : ℤ) (gc : GiftCard) (amount : ℚ) (gc' : GiftCard) :
      GiftCardReachable gc → redeemGiftCard now gc amount = .ok gc' →
      GiftCardReachable gc'
  | loaded (gc : GiftCard) (amount : ℚ) (gc' : GiftCard) :
      GiftCardReachable gc → addFunds gc amount = .ok gc' →
      GiftCardReachable gc'

lemma signedSum_append (ts : List GiftCardTransaction)
    (t : GiftCardTransaction) :
    signedSum (ts ++ [t]) = signedSum ts + signedAmount t := by
  simp [signedSum]

lemma giftCard_balance_signedSum {gc : GiftCard}
    (h : GiftCardReachable gc) :
    gc.currentBalance = signedSum gc.transactions := by
  induction h with
  | created init exp gc hc =>
      unfold createGiftCard at hc
      split at hc
      · exact Except.noConfusion hc
      · simp only [Except.ok.injEq] at hc
        subst hc
        simp [signedSum, signedAmount]
  | redeemed now gc amount gc' _ hstep ih =>
      unfold redeemGiftCard at hstep
      repeat' split at hstep
      all_goals
        first
        | exact Except.noConfusion hstep
        | (simp only [Except.ok.injEq] at hstep
           subst hstep
           simp only [signedSum_append, signedAmount, ih]
           ring)
  | loaded gc amount gc' _ hstep ih =>
      unfold addFunds at hstep
      repeat' split at hstep
      all_goals
        first
        | exact Except.noConfusion hstep
        | (simp only [Except.ok.injEq] at hstep
           subst hstep
           simp only [signedSum_append, signedAmount, ih])

/-- Decidable equality for `Except`, so that concrete runs of the
operations can be checked by `decide`. -/
instance {E A : Type} [DecidableEq E] [DecidableEq A] :
    DecidableEq (Except E A) := fun x y =>
  match x, y with
  | .ok a, .ok b =>
      if h : a = b then .isTrue (h ▸ rfl)
      else .isFalse (fun hc => h (by injection hc))
  | .error a, .error b =>
      if h : a = b then .isTrue (h ▸ rfl)
      else .isFalse (fun hc => h (by injection hc))
  | .ok _, .error _ => .isFalse (fun hc => Except.noConfusion hc)
  | .error _, .ok _ => .isFalse (fun hc => Except.noConfusion hc)

/-! ### Concrete states used as witnesses and counterexamples -/

/-- A restaurant with an 8% tax rate (the §8 scenario tenant). -/
def demoRestaurant : Restaurant := { id := 1, taxRate := 8 }

/-- Menu item priced 10.00, no modifiers. -/
def demoMenuItem10 : MenuItem :=
  { price := 10, available := true, restaurantId := 1, modifierGroups := [] }

/-- Menu item priced 5.00, no modifiers. -/
def demoMenuItem5 : MenuItem :=
  { price := 5, available := true, restaurantId := 1, modifierGroups := [] }

/-- The §8 scenario request: items priced 10.00 and 5.00, quantity 2
each, no modifiers. -/
def demoInputs : List OrderItemInput :=
  [ { menuItem := some demoMenuItem10, quantity := 2, modifierIds := [] },
    { menuItem := some demoMenuItem5, quantity := 2, modifierIds := [] } ]

/-- The order `createOrder demoRestaurant demoInputs` produces:
subtotal 30.00, tax 2.40, total 32.40. -/
def demoOrder : Order :=
  { status := .PENDING
    items :=
      [ { price := 10, quantity := 2, modifiers := [], status := .PENDING },
        { price := 5, quantity := 2, modifiers := [], status := .PENDING } ]
    subtotal := 30
    tax := 12/5
    tip := none
    total := 162/5
    taxRate := 8
    restaurantId := 1
    completedAt := none
    redemptions := [] }

lemma createOrder_demo : createOrder demoRestaurant demoInputs = .ok demoOrder := by
  simp only [createOrder, demoRestaurant, demoInputs, demoMenuItem10,
    demoMenuItem5, validateOrderItems, validateOrderItem, validateModifiers,
    lineTotal, demoOrder]
  norm_num

/-- A COMPLETED order (already stamped) on a zero-tax tenant. -/
def completedOrder : Order :=
  { status := .COMPLETED
    items := [ { price := 10, quantity := 1, modifiers := [], status := .SERVED } ]
    subtotal := 10
    tax := 0
    tip := none
    total := 10
    taxRate := 0
    restaurantId := 1
    completedAt := some 100
    redemptions := [] }

/-- A PENDING order with one PENDING item on a zero-tax tenant. -/
def pendingOrder : Order :=
  { status := .PENDING
    items := [ { price := 10, quantity := 1, modifiers := [], status := .PENDING } ]
    subtotal := 10
    tax := 0
    tip := none
    total := 10
    taxRate := 0
    restaurantId := 1
    completedAt := none
    redemptions := [] }

/-! ### Claim C1 -/

/-- **C1** (counterexample): the claim that a `COMPLETED`/`CANCELLED`
order's status is never changed by a status-update operation and that
such requests fail is false on the code: `updateOrderStatus` happily
moves a `COMPLETED` order back to `PENDING` and reports success. -/
theorem c1_counterexample :
    completedOrder.status = OrderStatus.COMPLETED ∧
    updateOrderStatus completedOrder .PENDING 7 =
      .ok { completedOrder with status := .PENDING } := by
  refine ⟨rfl, ?_⟩
  rw [updateOrderStatus_eq]
  simp

/-- **C1** (amended): `updateOrderStatus` performs no state-machine
validation at all — for every order and every requested status in the
enum it succeeds and writes exactly the requested status (stamping
`completedAt := now` when the request is `COMPLETED`/`CANCELLED`),
regardless of the current status, including from `COMPLETED` and
`CANCELLED`; no `InvalidStateTransition`-style failure exists in this
handler. -/
theorem c1_theorem (o : Order) (s : OrderStatus) (now : ℤ) :
    updateOrderStatus o s now =
      .ok { o with
        status := s
        completedAt :=
          if s = .COMPLETED ∨ s = .CANCELLED then some now
          else o.completedAt } :=
  updateOrderStatus_eq o s now

/-! ### Claim C2 -/

/-- **C2**: after every mutating operation on an order (equivalently,
in every order state reachable through the modelled operations
starting from `createOrder`), `total = subtotal + tax + (tip or 0)`
holds.  (No operation in the repository ever writes a tip, so every
reachable order has `tip = none` and each handler's recomputation
`total := subtotal + tax` re-establishes the invariant.) -/
theorem c2_theorem {o : Order} (h : OrderReachable o) : totalInvariant o := by
  obtain ⟨h1, h2, _⟩ := reachable_invariant h
  simp [totalInvariant, tipOr0, h1, h2]

/-- Witness for C2: the §8 scenario order is reachable and satisfies
the invariant. -/
theorem c2_witness : totalInvariant demoOrder :=
  c2_theorem
    (OrderReachable.created demoRestaurant demoInputs demoOrder createOrder_demo)

/-! ### Claim C8 -/

/-- The order `removeOrderItem demoOrder 0` produces: the 10.00×2 line
is removed, subtotal 10.00, tax 0.80, total 10.80. -/
def demoOrderAfterRemove : Order :=
  { status := .PENDING
    items := [ { price := 5, quantity := 2, modifiers := [], status := .PENDING } ]
    subtotal := 10
    tax := 4/5
    tip := none
    total := 54/5
    taxRate := 8
    restaurantId := 1
    completedAt := none
    redemptions := [] }

lemma removeOrderItem_demo :
    removeOrderItem demoOrder 0 = .ok demoOrderAfterRemove := by
  simp only [removeOrderItem, demoOrder, demoOrderAfterRemove, lineTotal]
  norm_num

/-- **C8**: every reachable order has at least one item; creating an
order with an empty item list is rejected (by the route validator,
before the controller's own identical check); and a successful item
removal requires a `PENDING` order with at least two items and leaves
the order non-empty. -/
theorem c8_theorem :
    (∀ o : Order, OrderReachable o → o.items ≠ []) ∧
    (∀ r : Restaurant, createOrder r [] = .error Err.validationFailed) ∧
    (∀ (o : Order) (idx : ℕ) (o' : Order), removeOrderItem o idx = .ok o' →
      o.status = .PENDING ∧ 2 ≤ o.items.length ∧ o'.items ≠ []) := by
  refine ⟨fun o h => (reachable_invariant h).2.2, fun r => rfl, ?_⟩
  intro o idx o' h
  obtain ⟨_, _, h3, _, h5, h6⟩ := removeOrderItem_ok h
  exact ⟨h5, h6, h3⟩

/-- Witness for C8 at concrete inputs. -/
theorem c8_witness :
    demoOrder.items ≠ [] ∧
    createOrder demoRestaurant [] = .error Err.validationFailed ∧
    (demoOrder.status = .PENDING ∧ 2 ≤ demoOrder.items.length ∧
      demoOrderAfterRemove.items ≠ []) :=
  ⟨c8_theorem.1 demoOrder
      (OrderReachable.created demoRestaurant demoInputs demoOrder createOrder_demo),
   c8_theorem.2.1 demoRestaurant,
   c8_theorem.2.2 demoOrder 0 demoOrderAfterRemove removeOrderItem_demo⟩

/-! ### Claim C5 -/

/-- **C5** (counterexample): the claim that kitchen advancement to
`READY` succeeds only from `PREPARING` is false: an order still
`PENDING` is advanced straight to `READY` (and its `PENDING` item is
left untouched, since only `PREPARING` items are cascaded). -/
theorem c5_counterexample :
    pendingOrder.status = OrderStatus.PENDING ∧
    updateKitchenOrderStatus pendingOrder .READY =
      .ok { pendingOrder with status := .READY } := by
  exact ⟨rfl, rfl⟩

/-- **C5** (amended): `updateKitchenOrderStatus` succeeds exactly when
the requested status is `PREPARING` or `READY` and the order is
currently `PENDING` or `PREPARING` — either target is accepted from
either state, so `PENDING → READY` is allowed, not only the
immediately preceding status.  On success the order takes the
requested status and the items are bulk-mirrored: advancing to
`PREPARING` moves exactly the `PENDING` items to `PREPARING`;
advancing to `READY` moves exactly the `PREPARING` items to `READY`. -/
theorem c5_theorem :
    (∀ (o : Order) (s : OrderStatus),
      (∃ o', updateKitchenOrderStatus o s = .ok o') ↔
        ((s = .PREPARING ∨ s = .READY) ∧
         (o.status = .PENDING ∨ o.status = .PREPARING))) ∧
    (∀ (o o' : Order), updateKitchenOrderStatus o .PREPARING = .ok o' →
      o'.status = .PREPARING ∧
      o'.items = o.items.map (fun it =>
        if it.status = .PENDING then { it with status := .PREPARING }
        else it)) ∧
    (∀ (o o' : Order), updateKitchenOrderStatus o .READY = .ok o' →
      o'.status = .READY ∧
      o'.items = o.items.map (fun it =>
        if it.status = .PREPARING then { it with status := .READY }
        else it)) := by
  refine ⟨?_, ?_, ?_⟩
  · intro o s
    constructor
    · rintro ⟨o', h⟩
      obtain ⟨h1, h2, _⟩ := updateKitchenOrderStatus_ok h
      exact ⟨h1, h2⟩
    · rintro ⟨hs, hcur⟩
      unfold updateKitchenOrderStatus
      rw [if_neg (not_not_intro hs), if_neg (not_not_intro hcur)]
      exact ⟨_, rfl⟩
  · intro o o' h
    obtain ⟨_, _, h3, _, _, _, _, h8⟩ := updateKitchenOrderStatus_ok h
    refine ⟨h3, ?_⟩
    simpa using h8
  · intro o o' h
    obtain ⟨_, _, h3, _, _, _, _, h8⟩ := updateKitchenOrderStatus_ok h
    refine ⟨h3, ?_⟩
    simpa using h8

/-- Witness for C5 at concrete inputs: advancing the concrete
`PENDING` order to `PREPARING` succeeds and cascades its item. -/
theorem c5_witness :
    (∃ o', updateKitchenOrderStatus pendingOrder .PREPARING = .ok o') ∧
    ({ pendingOrder with
        status := OrderStatus.PREPARING
        items := [ { price := 10, quantity := 1, modifiers := [],
                     status := ItemStatus.PREPARING } ] }.status
        = OrderStatus.PREPARING) :=
  ⟨(c5_theorem.1 pendingOrder .PREPARING).mpr ⟨Or.inl rfl, Or.inl rfl⟩,
   (c5_theorem.2.1 pendingOrder _ rfl).1⟩

/-! ### Claim C6 -/

/-- The result of `updateOrderItem pendingOrder 0 none (some SERVED)`:
the single item becomes `SERVED` while the order stays `PENDING`. -/
def c6Result : Order :=
  { pendingOrder with
    items := [ { price := 10, quantity := 1, modifiers := [],
                 status := .SERVED } ] }

/-- **C6** (counterexample): the claim that *every* item-status-changing
operation re-derives the order status is false: `updateOrderItem`
(the generic item-update endpoint) sets the order's only item to
`SERVED` yet leaves the order `PENDING` instead of promoting it. -/
theorem c6_counterexample :
    updateOrderItem pendingOrder 0 none (some ItemStatus.SERVED) =
      .ok c6Result ∧
    c6Result.items.all (fun i => i.status = ItemStatus.SERVED) = true ∧
    c6Result.status = OrderStatus.PENDING := by
  exact ⟨rfl, rfl, rfl⟩

/-- **C6** (amended): only the kitchen endpoint
`updateOrderItemStatus` re-derives the order status after an
item-status change, and it does so via `derivedOrderStatus` (which,
because of the source's operator precedence, promotes to `READY`
whenever the order is `PREPARING`, even if not all items are ready);
the generic `updateOrderItem` changes item fields but never touches
the order's own status. -/
theorem c6_theorem :
    (∀ (o : Order) (idx : ℕ) (s : ItemStatus) (o' : Order),
      updateOrderItemStatus o idx s = .ok o' →
      o'.status = derivedOrderStatus o'.items o.status) ∧
    (∀ (o : Order) (idx : ℕ) (q : Option ℤ) (s : Option ItemStatus)
      (o' : Order),
      updateOrderItem o idx q s = .ok o' → o'.status = o.status) := by
  constructor
  · intro o idx s o' h
    obtain ⟨it, _, _, h4, _⟩ := updateOrderItemStatus_ok h
    exact h4
  · intro o idx q s o' h
    exact (updateOrderItem_ok h).2.2.1

/-- Witness for C6 at concrete inputs: the kitchen endpoint promotes
the concrete order to `SERVED` (all items served); the generic
endpoint leaves it `PENDING`. -/
theorem c6_witness :
    ({ pendingOrder with
        items := [ { price := 10, quantity := 1, modifiers := [],
                     status := ItemStatus.SERVED } ]
        status := OrderStatus.SERVED }.status =
      derivedOrderStatus
        { pendingOrder with
          items := [ { price := 10, quantity := 1, modifiers := [],
                       status := ItemStatus.SERVED } ]
          status := OrderStatus.SERVED }.items pendingOrder.status) ∧
    c6Result.status = pendingOrder.status :=
  ⟨c6_theorem.1 pendingOrder 0 .SERVED _ rfl,
   c6_theorem.2 pendingOrder 0 none (some .SERVED) c6Result rfl⟩

/-! ### Claim C7 -/

/-- The card `createGiftCard 50 none` produces. -/
def demoGiftCard : GiftCard :=
  { initialBalance := 50
    currentBalance := 50
    isActive := true
    expiryDate := none
    transactions := [ { type := .ISSUE, amount := 50 } ] }

lemma createGiftCard_demo : createGiftCard 50 none = .ok demoGiftCard := by
  simp only [createGiftCard, demoGiftCard]
  norm_num

/-- **C7** (counterexample): the claimed equation
`currentBalance = initialBalance + signed sum of transactions` fails
already at creation: `createGiftCard 50` sets the balance to 50 *and*
records an `ISSUE` transaction of 50, so the right-hand side is 100. -/
theorem c7_counterexample :
    createGiftCard 50 none = .ok demoGiftCard ∧
    demoGiftCard.currentBalance = 50 ∧
    demoGiftCard.initialBalance + signedSum demoGiftCard.transactions = 100 ∧
    demoGiftCard.currentBalance ≠
      demoGiftCard.initialBalance + signedSum demoGiftCard.transactions := by
  refine ⟨createGiftCard_demo, rfl, ?_, ?_⟩
  · norm_num [demoGiftCard, signedSum, signedAmount]
  · norm_num [demoGiftCard, signedSum, signedAmount]

/-- **C7** (amended): for every reachable gift card the balance equals
the *plain* signed sum of its transactions (`ISSUE`/`LOAD` positive,
`REDEEM` negative) — the `ISSUE` entry already carries the initial
balance, which is therefore not added separately; this equation is
preserved by `createGiftCard`, `redeemGiftCard` and `addFunds`. -/
theorem c7_theorem {gc : GiftCard} (h : GiftCardReachable gc) :
    gc.currentBalance = signedSum gc.transactions :=
  giftCard_balance_signedSum h

/-- The card after redeeming the full 50.00: balance 0, deactivated
(the §8 gift-card scenario). -/
def demoGiftCardAfterRedeem : GiftCard :=
  { initialBalance := 50
    currentBalance := 0
    isActive := false
    expiryDate := none
    transactions := [ { type := .ISSUE, amount := 50 },
                      { type := .REDEEM, amount := 50 } ] }

lemma redeemGiftCard_demo :
    redeemGiftCard 0 demoGiftCard 50 = .ok demoGiftCardAfterRedeem := by
  simp only [redeemGiftCard, demoGiftCard, demoGiftCardAfterRedeem, Option.any]
  norm_num

/-- Witness for C7: the issue-then-full-redeem chain satisfies the
amended equation. -/
theorem c7_witness :
    demoGiftCardAfterRedeem.currentBalance =
      signedSum demoGiftCardAfterRedeem.transactions :=
  c7_theorem
    (GiftCardReachable.redeemed 0 demoGiftCard 50 demoGiftCardAfterRedeem
      (GiftCardReachable.created 50 none demoGiftCard createGiftCard_demo)
      redeemGiftCard_demo)

/-! ### Claim C9 -/

/-- A 100%-off PERCENTAGE voucher that passes every `applyVoucher`
guard (active, in date, unlimited, no minimum). -/
def fullPercentVoucher : Voucher :=
  { type := .PERCENTAGE
    value := 100
    minPurchase := 0
    isActive := true
    startDate := 0
    expiryDate := 2000000000000
    usageLimit := none
    usageCount := 0 }

/-- The order after applying the 100% voucher to `pendingOrder`. -/
def c9Applied : Order :=
  { pendingOrder with
    subtotal := 0
    tax := 0
    total := 0
    redemptions := [ { fullPercentVoucher with usageCount := 1 } ] }

lemma applyVoucher_c9 :
    applyVoucher 0 pendingOrder (some fullPercentVoucher) =
      .ok (c9Applied, { fullPercentVoucher with usageCount := 1 }) := by
  simp only [applyVoucher, pendingOrder, fullPercentVoucher, c9Applied,
    discountAmount, percentageDiscount, round2, tipOr0, Option.any,
    APPLY_VOUCHER_NOW]
  norm_num

/-- The order after then removing the voucher: the `PERCENTAGE` branch
divides by `1 - 100/100 = 0` (in `ℚ` this yields 0; in the source,
`Infinity`/`NaN`). -/
def c9Removed : Order :=
  { pendingOrder with
    subtotal := 0
    tax := 0
    total := 0
    redemptions := [] }

lemma removeVoucher_c9 :
    removeVoucher c9Applied = .ok (c9Removed, fullPercentVoucher) := by
  simp only [removeVoucher, c9Applied, c9Removed, removeDiscountFactor,
    fullPercentVoucher, pendingOrder, round2, tipOr0]
  norm_num

/-- **C9**: for `PERCENTAGE` vouchers with value < 100 the divisor
`1 - value/100` of `removeVoucher` is nonzero; and the division-by-zero
branch is reachable for value = 100 — `applyVoucher` accepts a 100%
voucher with no guard, and `removeVoucher` then runs the `PERCENTAGE`
reconstruction with divisor 0 without failing. -/
theorem c9_theorem :
    (∀ v : Voucher, v.value < 100 → removeDiscountFactor v ≠ 0) ∧
    (applyVoucher 0 pendingOrder (some fullPercentVoucher) =
        .ok (c9Applied, { fullPercentVoucher with usageCount := 1 }) ∧
      removeDiscountFactor { fullPercentVoucher with usageCount := 1 } = 0 ∧
      removeVoucher c9Applied = .ok (c9Removed, fullPercentVoucher)) := by
  refine ⟨?_, applyVoucher_c9, ?_, removeVoucher_c9⟩
  · intro v hv h0
    unfold removeDiscountFactor at h0
    linarith
  · norm_num [removeDiscountFactor, fullPercentVoucher]

/-- A 20%-off voucher (the §8 voucher scenario), in date and active. -/
def twentyPercentVoucher : Voucher :=
  { type := .PERCENTAGE
    value := 20
    minPurchase := 0
    isActive := true
    startDate := 0
    expiryDate := 2000000000000
    usageLimit := none
    usageCount := 0 }

/-- Witness for C9's universally quantified part at value 20. -/
theorem c9_witness :
    twentyPercentVoucher.value < 100 ∧
    removeDiscountFactor twentyPercentVoucher ≠ 0 :=
  ⟨by norm_num [twentyPercentVoucher],
   c9_theorem.1 twentyPercentVoucher (by norm_num [twentyPercentVoucher])⟩

/-! ### Claim C10 -/

/-- **C10**: `applyVoucher` is insensitive to the real request time —
its outcome is identical for any two wall-clock instants, because all
date checks compare against the constant `APPLY_VOUCHER_NOW`
(2025-05-09T05:49:52Z); consequently a voucher whose expiry is on or
after that constant is never rejected as expired, even at a real time
past its expiry. -/
theorem c10_theorem :
    (∀ (t₁ t₂ : ℤ) (o : Order) (v : Option Voucher),
      applyVoucher t₁ o v = applyVoucher t₂ o v) ∧
    (∀ (t : ℤ) (o : Order) (v : Voucher),
      APPLY_VOUCHER_NOW ≤ v.expiryDate →
      applyVoucher t o (some v) ≠ .error Err.voucherExpired) := by
  constructor
  · intro t₁ t₂ o v
    rfl
  · intro t o v hexp
    unfold applyVoucher
    repeat' split
    all_goals
      first
      | (simp; done)
      | (rename_i heq hact hstart hgt
         exfalso
         rw [Option.some.injEq] at heq
         subst heq
         omega)

/-- Witness for C10 at a concrete late time: the 100% voucher expires
well after the hard-coded constant, and a request far past its expiry
is still not rejected as expired. -/
theorem c10_witness :
    APPLY_VOUCHER_NOW ≤ fullPercentVoucher.expiryDate ∧
    applyVoucher 99999999999999 pendingOrder (some fullPercentVoucher) ≠
      .error Err.voucherExpired :=
  ⟨by norm_num [APPLY_VOUCHER_NOW, fullPercentVoucher],
   c10_theorem.2 99999999999999 pendingOrder fullPercentVoucher
     (by norm_num [APPLY_VOUCHER_NOW, fullPercentVoucher])⟩

/-! ### Claim C4 -/

/-- A tenant with an 8% tax rate and one 0.99 menu item, exposing the
absence of rounding. -/
def pt99Restaurant : Restaurant := { id := 2, taxRate := 8 }

/-- Menu item priced 0.99. -/
def pt99Item : MenuItem :=
  { price := 99/100, available := true, restaurantId := 2,
    modifierGroups := [] }

/-- The order `createOrder pt99Restaurant [pt99Item ×1]` produces:
tax = 0.99 · 8% = 0.0792, carried at full precision. -/
def pt99Order : Order :=
  { status := .PENDING
    items := [ { price := 99/100, quantity := 1, modifiers := [],
                 status := .PENDING } ]
    subtotal := 99/100
    tax := 99/1250
    tip := none
    total := 2673/2500
    taxRate := 8
    restaurantId := 2
    completedAt := none
    redemptions := [] }

/-- **C4** (counterexample): the claim that subtotal/tax/total are
rounded to 2 decimals at the final step is false — `createOrder`
never rounds: a 0.99 item at 8% yields tax 0.0792, which is not a
2-decimal value. -/
theorem c4_counterexample :
    createOrder pt99Restaurant
      [ { menuItem := some pt99Item, quantity := 1, modifierIds := [] } ] =
      .ok pt99Order ∧
    pt99Order.tax = 99/1250 ∧
    round2 pt99Order.tax ≠ pt99Order.tax := by
  refine ⟨?_, rfl, ?_⟩
  · simp only [createOrder, pt99Restaurant, pt99Item, pt99Order,
      validateOrderItems, validateOrderItem, validateModifiers, lineTotal]
    norm_num
  · show round2 (99/1250) ≠ 99/1250
    rw [round2, round_eq]
    norm_num

/-- **C4** (amended): `createOrder`'s totals satisfy
`lineTotal = (unitPrice + Σ modifierPrices) · quantity`,
`subtotal = Σ lineTotals`, `tax = subtotal · taxRate/100`,
`total = subtotal + tax`, but with *no rounding at any step* — all
values are carried at full precision; the §8 scenario (10.00 and 5.00
at quantity 2 each, 8% tax) yields exactly subtotal 30.00, tax 2.40,
total 32.40. -/
theorem c4_theorem :
    (∀ (r : Restaurant) (inputs : List OrderItemInput) (o : Order),
      createOrder r inputs = .ok o →
      o.subtotal = (o.items.map lineTotal).sum ∧
      o.tax = o.subtotal * (r.taxRate / 100) ∧
      o.total = o.subtotal + o.tax) ∧
    (createOrder demoRestaurant demoInputs = .ok demoOrder ∧
      demoOrder.subtotal = 30 ∧ demoOrder.tax = 12/5 ∧
      demoOrder.total = 162/5) := by
  refine ⟨?_, createOrder_demo, rfl, rfl, rfl⟩
  intro r inputs o h
  obtain ⟨h1, h2, h3, _⟩ := createOrder_ok h
  exact ⟨h1, h2, h3⟩

/-- Witness for C4's universally quantified part at the scenario
input. -/
theorem c4_witness :
    demoOrder.subtotal = (demoOrder.items.map lineTotal).sum ∧
    demoOrder.tax = demoOrder.subtotal * (demoRestaurant.taxRate / 100) ∧
    demoOrder.total = demoOrder.subtotal + demoOrder.tax :=
  c4_theorem.1 demoRestaurant demoInputs demoOrder createOrder_demo

/-! ### Claim C3 -/

lemma applyVoucher_success_eq {t : ℤ} {o : Order} {v : Voucher}
    {o₁ : Order} {v₁ : Voucher}
    (h : applyVoucher t o (some v) = .ok (o₁, v₁)) :
    v₁ = { v with usageCount := v.usageCount + 1 } ∧
    o₁ = { o with
      subtotal := max 0 (o.subtotal - round2 (discountAmount v o.subtotal))
      tax := max 0 (o.subtotal - round2 (discountAmount v o.subtotal)) *
        o.taxRate / 100
      total := max 0 (o.subtotal - round2 (discountAmount v o.subtotal)) +
        max 0 (o.subtotal - round2 (discountAmount v o.subtotal)) *
          o.taxRate / 100 + tipOr0 o
      redemptions := [ { v with usageCount := v.usageCount + 1 } ] } := by
  simp only [applyVoucher] at h
  repeat' split at h
  all_goals
    first
    | exact Except.noConfusion h
    | (simp only [Except.ok.injEq, Prod.mk.injEq] at h
       exact ⟨h.2.symm, h.1.symm⟩)

/-- A 20.00 FIXED_AMOUNT voucher, in date and active, no minimum. -/
def fixed20Voucher : Voucher :=
  { type := .FIXED_AMOUNT
    value := 20
    minPurchase := 0
    isActive := true
    startDate := 0
    expiryDate := 2000000000000
    usageLimit := none
    usageCount := 0 }

/-- `pendingOrder` (subtotal 10.00) after applying the 20.00 fixed
voucher: the discount is clamped, subtotal 0. -/
def fixed20Applied : Order :=
  { pendingOrder with
    subtotal := 0
    tax := 0
    total := 0
    redemptions := [ { fixed20Voucher with usageCount := 1 } ] }

/-- …and after then removing it: the FIXED_AMOUNT branch adds the full
voucher value back, yielding subtotal 20.00 — not the original
10.00. -/
def fixed20Removed : Order :=
  { pendingOrder with
    subtotal := 20
    tax := 0
    total := 20
    redemptions := [] }

/-- **C3** (counterexample): apply-then-remove is not an inverse
within ±0.01 for every voucher value: a FIXED_AMOUNT voucher of 20.00
on a 10.00 order applies successfully (discount clamped at 10.00) but
removal reconstructs subtotal 20.00, off by 10.00. -/
theorem c3_counterexample :
    applyVoucher 0 pendingOrder (some fixed20Voucher) =
      .ok (fixed20Applied, { fixed20Voucher with usageCount := 1 }) ∧
    removeVoucher fixed20Applied = .ok (fixed20Removed, fixed20Voucher) ∧
    pendingOrder.subtotal = 10 ∧ fixed20Removed.subtotal = 20 ∧
    ¬ |fixed20Removed.subtotal - pendingOrder.subtotal| ≤ 1/100 := by
  refine ⟨?_, ?_, rfl, rfl, ?_⟩
  · simp only [applyVoucher, pendingOrder, fixed20Voucher, fixed20Applied,
      discountAmount, round2, tipOr0, Option.any, APPLY_VOUCHER_NOW]
    norm_num
  · simp only [removeVoucher, fixed20Applied, fixed20Removed, fixed20Voucher,
      pendingOrder, round2, tipOr0]
    norm_num
  · norm_num [fixed20Removed, pendingOrder]

lemma removeVoucher_eq {o : Order} {w : Voucher} {rest : List Voucher}
    (h : o.redemptions = w :: rest) :
    removeVoucher o = .ok
      ({ o with
         subtotal := round2 (match w.type with
           | .PERCENTAGE => o.subtotal / removeDiscountFactor w
           | .FIXED_AMOUNT => o.subtotal + w.value
           | .FREE_ITEM => o.subtotal + w.value)
         tax := round2 (match w.type with
           | .PERCENTAGE => o.subtotal / removeDiscountFactor w
           | .FIXED_AMOUNT => o.subtotal + w.value
           | .FREE_ITEM => o.subtotal + w.value) * o.taxRate / 100
         total := round2 (match w.type with
           | .PERCENTAGE => o.subtotal / removeDiscountFactor w
           | .FIXED_AMOUNT => o.subtotal + w.value
           | .FREE_ITEM => o.subtotal + w.value) +
           round2 (match w.type with
             | .PERCENTAGE => o.subtotal / removeDiscountFactor w
             | .FIXED_AMOUNT => o.subtotal + w.value
             | .FREE_ITEM => o.subtotal + w.value) * o.taxRate / 100 +
           tipOr0 o
         redemptions := rest },
       { w with usageCount := w.usageCount - 1 }) := by
  unfold removeVoucher
  rw [h]

/-- **C3** (amended): apply-then-remove restores subtotal, tax and
total *exactly* provided the pre-apply order is consistent
(`tax = subtotal·taxRate/100`, `total = subtotal + tax + (tip or 0)`)
with a whole-cent subtotal, and the voucher's discount needs no
rounding and does not exceed the subtotal — for `PERCENTAGE`:
`0 ≤ value < 100` and `subtotal·value/100` already a whole number of
cents; for `FIXED_AMOUNT`/`FREE_ITEM`: a whole-cent `value ≤ subtotal`.
Outside these conditions restoration can be off by far more than
±0.01 (see the counterexample). -/
theorem c3_theorem {t : ℤ} {o : Order} {v : Voucher} {o₁ : Order}
    {v₁ : Voucher}
    (happly : applyVoucher t o (some v) = .ok (o₁, v₁))
    (hsub0 : 0 ≤ o.subtotal)
    (hsub2 : round2 o.subtotal = o.subtotal)
    (htax : o.tax = o.subtotal * o.taxRate / 100)
    (htotal : o.total = o.subtotal + o.tax + tipOr0 o)
    (hval : match v.type with
      | .PERCENTAGE => 0 ≤ v.value ∧ v.value < 100 ∧
          round2 (percentageDiscount o.subtotal v.value) =
            percentageDiscount o.subtotal v.value
      | .FIXED_AMOUNT => round2 v.value = v.value ∧ v.value ≤ o.subtotal
      | .FREE_ITEM => round2 v.value = v.value ∧ v.value ≤ o.subtotal) :
    ∃ (o₂ : Order) (v₂ : Voucher), removeVoucher o₁ = .ok (o₂, v₂) ∧
      o₂.subtotal = o.subtotal ∧ o₂.tax = o.tax ∧ o₂.total = o.total := by
  obtain ⟨hv1, ho1⟩ := applyVoucher_success_eq happly
  subst ho1
  rcases hty : v.type with _ | _ | _
  · -- PERCENTAGE
    rw [hty] at hval
    simp only [] at hval
    obtain ⟨hv0, hv100, hexact⟩ := hval
    have hexact' : round2 (o.subtotal * v.value / 100) =
        o.subtotal * v.value / 100 := by
      simpa [percentageDiscount] using hexact
    have hdle : o.subtotal * v.value / 100 ≤ o.subtotal := by
      nlinarith [mul_nonneg (sub_nonneg.mpr hv100.le) hsub0]
    have hne : (1 : ℚ) - v.value / 100 ≠ 0 := by
      intro h0; linarith
    have hdiv : (o.subtotal - o.subtotal * v.value / 100) /
        (1 - v.value / 100) = o.subtotal := by
      rw [show o.subtotal - o.subtotal * v.value / 100 =
        o.subtotal * (1 - v.value / 100) by ring]
      exact mul_div_cancel_right₀ _ hne
    refine ⟨_, _, removeVoucher_eq rfl, ?_, ?_, ?_⟩
    all_goals
      simp only [discountAmount, percentageDiscount, removeDiscountFactor,
        hty, tipOr0]
      rw [hexact',
        max_eq_right (by linarith : (0:ℚ) ≤ o.subtotal - o.subtotal * v.value / 100),
        hdiv, hsub2]
    · rw [htax]
    · rw [htotal, htax]
      simp [tipOr0]
  · -- FIXED_AMOUNT
    rw [hty] at hval
    simp only [] at hval
    obtain ⟨hvr, hvle⟩ := hval
    refine ⟨_, _, removeVoucher_eq rfl, ?_, ?_, ?_⟩
    all_goals
      simp only [discountAmount, removeDiscountFactor, hty, tipOr0]
      rw [min_eq_left hvle, hvr,
        max_eq_right (by linarith : (0:ℚ) ≤ o.subtotal - v.value),
        show o.subtotal - v.value + v.value = o.subtotal by ring, hsub2]
    · rw [htax]
    · rw [htotal, htax]
      simp [tipOr0]
  · -- FREE_ITEM
    rw [hty] at hval
    simp only [] at hval
    obtain ⟨hvr, hvle⟩ := hval
    refine ⟨_, _, removeVoucher_eq rfl, ?_, ?_, ?_⟩
    all_goals
      simp only [discountAmount, removeDiscountFactor, hty, tipOr0]
      rw [hvr,
        max_eq_right (by linarith : (0:ℚ) ≤ o.subtotal - v.value),
        show o.subtotal - v.value + v.value = o.subtotal by ring, hsub2]
    · rw [htax]
    · rw [htotal, htax]
      simp [tipOr0]

/-- The §8 voucher scenario order after applying the 20% voucher to
the 30.00 order: discount 6.00, subtotal 24.00, tax 1.92,
total 25.92. -/
def scenarioApplied : Order :=
  { demoOrder with
    subtotal := 24
    tax := 48/25
    total := 648/25
    redemptions := [ { twentyPercentVoucher with usageCount := 1 } ] }

lemma applyVoucher_scenario :
    applyVoucher 0 demoOrder (some twentyPercentVoucher) =
      .ok (scenarioApplied, { twentyPercentVoucher with usageCount := 1 }) := by
  simp only [applyVoucher, demoOrder, twentyPercentVoucher, scenarioApplied,
    discountAmount, percentageDiscount, round2, tipOr0, Option.any,
    APPLY_VOUCHER_NOW]
  norm_num

/-- Witness for C3 at the §8 scenario: applying the 20% voucher to the
30.00/8% order and removing it restores subtotal 30.00, tax 2.40,
total 32.40 exactly. -/
theorem c3_witness :
    ∃ (o₂ : Order) (v₂ : Voucher),
      removeVoucher scenarioApplied = .ok (o₂, v₂) ∧
      o₂.subtotal = demoOrder.subtotal ∧ o₂.tax = demoOrder.tax ∧
      o₂.total = demoOrder.total :=
  c3_theorem applyVoucher_scenario
    (by norm_num [demoOrder])
    (by norm_num [demoOrder, round2, round_eq])
    (by norm_num [demoOrder])
    (by norm_num [demoOrder, tipOr0])
    (by norm_num [twentyPercentVoucher, demoOrder, percentageDiscount,
      round2, round_eq])
